import Mathlib

/-!
Verification of the clutch-or-predict scraper against its specification.

The development shallowly embeds the parts of the code that the claims
are about:

* `src/scraper/pool.py` — the bounded, elastic page pool (`PagePool`),
  modelled as a state machine over the pool's counters.  Page identity is
  irrelevant to the claims, so the free queue is modelled by its size and
  checked-out handles by their number (`in_use`); `rotations` is a ghost
  counter of completed context rotations.
* `src/scraper/celery.py` — `ensure_initialized`, `process_full_match`
  and the `full_match` task, modelled over explicit outcome records for
  the awaited sub-steps.
* `src/scraper/frontier.py` — `HLTVFrontier` and the item-link walk of a
  results page.
-/

deriving instance DecidableEq for Except

namespace ClutchOrPredict

/-! ### Page pool (src/scraper/pool.py) -/

/-- State of a `PagePool`, field names as in `PagePool.__init__`.
`free_pages` is the size of the `asyncio.Queue` of free pages, `in_use`
the number of handles currently checked out by callers, and `rotations`
a ghost counter of context rotations. -/
structure PagePool where
  max_amount_of_concurrent_pages : Int
  initial_page_size : Int
  minimum_page_size : Int
  max_operations_per_context : Int
  default_timeout : Int
  free_pages : Nat
  current_page_count : Int
  operation_amount_in_current_context : Int
  in_use : Nat
  rotations : Nat
deriving Repr, DecidableEq

/-- `PagePool.__init__` (pool.py:40-75): validation and clamping of the
sizes, then the pool state.  `pagesLen` is the length of the `pages`
list handed to the constructor.  Note that the guard on
`minimum_page_size` assigns `minimum_page_size = minimum_page_size`
(pool.py:59-60), a no-op, reproduced faithfully here. -/
def PagePool.make (max0 init0 min0 timeout0 budget0 : Int) (pagesLen : Nat) :
    Except String PagePool :=
  if init0 > max0 then
    .error "Initial page size cannot be greater than max amount of concurrent pages."
  else
    let init1 := if init0 ≤ 0 then 1 else init0
    let max1 := if max0 ≤ 0 then 1 else max0
    let min1 := if min0 ≤ 0 ∨ min0 > init1 then min0 else min0
    .ok
      { max_amount_of_concurrent_pages := max1
        initial_page_size := init1
        minimum_page_size := min1
        max_operations_per_context := budget0
        default_timeout := timeout0
        free_pages := pagesLen
        current_page_count := init1
        operation_amount_in_current_context := 0
        in_use := 0
        rotations := 0 }

/-- `create_page_pool` (pool.py:12-36): creates `initial_page_size` pages
(`range` of a non-positive count is empty) and hands them to the
constructor. -/
def create_page_pool (max0 init0 min0 timeout0 budget0 : Int) :
    Except String PagePool :=
  PagePool.make max0 init0 min0 timeout0 budget0 init0.toNat

/-- `PagePool.__create_new_context_if_needed` (pool.py:105-141).  Below
budget the operation counter is charged and nothing else happens.  At
budget: `close_all_pages` drains and closes the free queue, the counter
is reset, the old context is closed, a fresh context is populated with
`initial_page_size` new pages which are put on the queue, and
`current_page_count = len(pages)`. -/
def PagePool.create_new_context_if_needed (p : PagePool) : PagePool :=
  if p.operation_amount_in_current_context < p.max_operations_per_context then
    { p with operation_amount_in_current_context :=
        p.operation_amount_in_current_context + 1 }
  else
    { p with free_pages := p.initial_page_size.toNat
             operation_amount_in_current_context := 0
             current_page_count := p.initial_page_size
             rotations := p.rotations + 1 }

/-- `PagePool.acquire` (pool.py:77-103): rotation check, then under the
lock either create a new page (when the queue is empty and the count is
below the maximum) or take one from the free queue. -/
def PagePool.acquire (p : PagePool) : PagePool :=
  let p := p.create_new_context_if_needed
  if p.free_pages = 0 ∧
      p.current_page_count < p.max_amount_of_concurrent_pages then
    { p with current_page_count := p.current_page_count + 1
             in_use := p.in_use + 1 }
  else
    { p with free_pages := p.free_pages - 1, in_use := p.in_use + 1 }

/-- An `acquire` completes without suspending forever: after the rotation
check, either the create branch applies or the free queue is non-empty
(`free_pages.get()` on an empty queue blocks). -/
def PagePool.acquireEnabled (p : PagePool) : Bool :=
  let p := p.create_new_context_if_needed
  (decide (p.free_pages = 0) &&
    decide (p.current_page_count < p.max_amount_of_concurrent_pages)) ||
  decide (0 < p.free_pages)

/-- `PagePool.release` (pool.py:143-164): above the minimum the page is
closed and the count decremented; otherwise the page is navigated to
`about:blank` and put back on the free queue. -/
def PagePool.release (p : PagePool) : PagePool :=
  if p.minimum_page_size < (p.free_pages : Int) then
    { p with current_page_count := p.current_page_count - 1
             in_use := p.in_use - 1 }
  else
    { p with free_pages := p.free_pages + 1, in_use := p.in_use - 1 }

/-- A `release` is meaningful and completes: some handle is checked out,
and either the close branch applies or the bounded queue has room for
the `put` (the queue's `maxsize` is `max_amount_of_concurrent_pages`). -/
def PagePool.releaseEnabled (p : PagePool) : Bool :=
  decide (0 < p.in_use) &&
    (decide (p.minimum_page_size < (p.free_pages : Int)) ||
      decide ((p.free_pages : Int) < p.max_amount_of_concurrent_pages))

/-- `PagePool.close_all_pages` (pool.py:179-187): drains the free queue,
closing each drained page.  Checked-out handles and
`current_page_count` are not touched. -/
def PagePool.close_all_pages (p : PagePool) : PagePool :=
  { p with free_pages := 0 }

/-- A pool operation issued by a caller. -/
inductive PoolOp
  | acquire
  | release
deriving Repr, DecidableEq

def PagePool.step (p : PagePool) : PoolOp → PagePool
  | .acquire => p.acquire
  | .release => p.release

def PagePool.opEnabled (p : PagePool) : PoolOp → Bool
  | .acquire => p.acquireEnabled
  | .release => p.releaseEnabled

/-- Run a sequence of pool operations. -/
def PagePool.run (p : PagePool) (l : List PoolOp) : PagePool :=
  l.foldl PagePool.step p

/-- Every operation of the sequence is enabled when its turn comes. -/
def PagePool.legal (p : PagePool) : List PoolOp → Bool
  | [] => true
  | o :: rest => p.opEnabled o && (p.step o).legal rest

/-- Number of acquires in an operation sequence. -/
def acquireCount : List PoolOp → Nat
  | [] => 0
  | .acquire :: rest => acquireCount rest + 1
  | .release :: rest => acquireCount rest

/-- The configuration parameters of a pool, which no operation mutates. -/
def PagePool.params (p : PagePool) : Int × Int × Int × Int × Int :=
  (p.max_amount_of_concurrent_pages, p.initial_page_size,
   p.minimum_page_size, p.max_operations_per_context, p.default_timeout)

/-- Upper-bound invariant: the page count never exceeds the maximum, and
the rotation target fits below it. -/
def PagePool.countBound (p : PagePool) : Prop :=
  p.initial_page_size ≤ p.max_amount_of_concurrent_pages ∧
  p.current_page_count ≤ p.max_amount_of_concurrent_pages

/-- Accounting invariant of rotation-free execution: the page count is
exactly the free pages plus the checked-out ones, and the operation
counter is non-negative. -/
def PagePool.counted (p : PagePool) : Prop :=
  p.current_page_count = (p.free_pages : Int) + (p.in_use : Int) ∧
  0 ≤ p.operation_amount_in_current_context

/-! ### Interleaving model of one acquirer and one releaser

`acquire` awaits `free_pages.get()` while still holding `self._lock`
(pool.py:86-103), and `release` needs that same lock (pool.py:152).  To
settle the claim about blocking acquires being unblocked by a later
release, the two coroutines are modelled at the granularity of their
suspension points on the shared pool state. -/

/-- Program counter of a coroutine running `PagePool.acquire`:
waiting for the lock for the rotation check; holding it for the check;
waiting for the lock for the body; holding it for the queue-empty test;
suspended in `free_pages.get()` with the lock held; returned. -/
inductive AcqPc
  | rotLockWait
  | rotCheck
  | bodyLockWait
  | bodyCheck
  | queueGetWait
  | done
deriving Repr, DecidableEq

/-- Program counter of a coroutine running `PagePool.release`:
waiting for the lock; holding it for the branch; suspended in
`free_pages.put(page)` with the lock held; returned. -/
inductive RelPc
  | lockWait
  | branch
  | queuePutWait
  | done
deriving Repr, DecidableEq

inductive LockOwner
  | acquirer
  | releaser
deriving Repr, DecidableEq

/-- Shared pool state plus the two coroutines' positions. -/
structure PoolConf where
  lock : Option LockOwner
  free_pages : Nat
  current_page_count : Int
  operation_amount_in_current_context : Int
  max_amount_of_concurrent_pages : Int
  initial_page_size : Int
  minimum_page_size : Int
  max_operations_per_context : Int
  acqPc : AcqPc
  relPc : RelPc
deriving Repr, DecidableEq

/-- One scheduler step of the acquiring coroutine, `none` when it cannot
make progress (the await it sits on cannot resume). -/
def PoolConf.acqStep (c : PoolConf) : Option PoolConf :=
  match c.acqPc with
  | .rotLockWait =>
      if c.lock = none then
        some { c with lock := some .acquirer, acqPc := .rotCheck }
      else none
  | .rotCheck =>
      if c.operation_amount_in_current_context <
          c.max_operations_per_context then
        some { c with
          operation_amount_in_current_context :=
            c.operation_amount_in_current_context + 1
          lock := none
          acqPc := .bodyLockWait }
      else
        some { c with
          free_pages := c.initial_page_size.toNat
          operation_amount_in_current_context := 0
          current_page_count := c.initial_page_size
          lock := none
          acqPc := .bodyLockWait }
  | .bodyLockWait =>
      if c.lock = none then
        some { c with lock := some .acquirer, acqPc := .bodyCheck }
      else none
  | .bodyCheck =>
      if c.free_pages = 0 ∧
          c.current_page_count < c.max_amount_of_concurrent_pages then
        some { c with
          current_page_count := c.current_page_count + 1
          lock := none
          acqPc := .done }
      else
        some { c with acqPc := .queueGetWait }
  | .queueGetWait =>
      if 0 < c.free_pages then
        some { c with free_pages := c.free_pages - 1, lock := none,
                      acqPc := .done }
      else none
  | .done => none

/-- One scheduler step of the releasing coroutine. -/
def PoolConf.relStep (c : PoolConf) : Option PoolConf :=
  match c.relPc with
  | .lockWait =>
      if c.lock = none then
        some { c with lock := some .releaser, relPc := .branch }
      else none
  | .branch =>
      if c.minimum_page_size < (c.free_pages : Int) then
        some { c with
          current_page_count := c.current_page_count - 1
          lock := none
          relPc := .done }
      else
        some { c with relPc := .queuePutWait }
  | .queuePutWait =>
      if (c.free_pages : Int) < c.max_amount_of_concurrent_pages then
        some { c with free_pages := c.free_pages + 1, lock := none,
                      relPc := .done }
      else none
  | .done => none

/-- All configurations reachable in one scheduler step. -/
def PoolConf.next (c : PoolConf) : List PoolConf :=
  c.acqStep.toList ++ c.relStep.toList

/-- Pool of `max = 1, initial = 1, min = 1, budget = 200` whose single
page has been checked out by the releaser (its own acquire charged one
operation); the acquirer is about to call `acquire`, the releaser is
about to call `release`. -/
def exhaustedConf : PoolConf :=
  { lock := none
    free_pages := 0
    current_page_count := 1
    operation_amount_in_current_context := 1
    max_amount_of_concurrent_pages := 1
    initial_page_size := 1
    minimum_page_size := 1
    max_operations_per_context := 200
    acqPc := .rotLockWait
    relPc := .lockWait }

/-- Let the acquirer run alone for `n` scheduler steps. -/
def PoolConf.runAcq (c : PoolConf) : Nat → PoolConf
  | 0 => c
  | n + 1 =>
      match c.acqStep with
      | some c2 => c2.runAcq n
      | none => c

/-! ### Worker initialization (src/scraper/celery.py, ensure_initialized) -/

/-- The process-wide globals that `ensure_initialized` manipulates:
`_is_initialized` and whether `event_loop` has been created (the
background scheduler thread). -/
structure WorkerGlobals where
  is_initialized : Bool
  event_loop_started : Bool
deriving Repr, DecidableEq

/-- Outcomes of the awaited sub-steps of `setup()` (celery.py:123-176),
in source order: start Playwright, launch or connect the browser,
build the page pool, open the database pool. -/
structure SetupSteps where
  start_playwright : Except String Unit
  connect_browser : Except String Unit
  build_page_pool : Except String Unit
  open_db_pool : Except String Unit
deriving Repr, DecidableEq

/-- `setup()` runs its sub-steps in order and fails at the first error. -/
def run_setup (s : SetupSteps) : Except String Unit :=
  match s.start_playwright with
  | .error e => .error e
  | .ok _ =>
    match s.connect_browser with
    | .error e => .error e
    | .ok _ =>
      match s.build_page_pool with
      | .error e => .error e
      | .ok _ => s.open_db_pool

/-- `ensure_initialized` (celery.py:92-187): fast-path return when the
flag is set; otherwise start the background loop if it does not exist,
run `setup()` on it and wait for `future.result()`; set
`_is_initialized = True` only after that succeeded; on failure re-raise
and leave the flag unset. -/
def ensure_initialized (g : WorkerGlobals) (s : SetupSteps) :
    WorkerGlobals × Except String Unit :=
  if g.is_initialized then (g, .ok ())
  else
    let g2 : WorkerGlobals := { g with event_loop_started := true }
    match run_setup s with
    | .ok _ => ({ g2 with is_initialized := true }, .ok ())
    | .error e => (g2, .error e)

/-! ### Transactional full-match processing (src/scraper/celery.py) -/

/-- Kinds of rows the four sub-steps insert for one match. -/
inductive RowKind
  | matchResultRow
  | mapStatRow
  | vetoRow
  | playerStatRow
deriving Repr, DecidableEq

/-- A row pending or committed in the relational store, tagged with the
match it belongs to. -/
structure Row where
  kind : RowKind
  match_url : String
deriving Repr, DecidableEq

/-- A database connection: rows visible to other transactions
(`committed`) and rows written inside the open transaction
(`pending`). -/
structure AsyncConnection where
  committed : List Row
  pending : List Row
deriving Repr, DecidableEq

def AsyncConnection.insertRows (c : AsyncConnection) (rows : List Row) :
    AsyncConnection :=
  { c with pending := c.pending ++ rows }

def AsyncConnection.commit (c : AsyncConnection) : AsyncConnection :=
  { committed := c.committed ++ c.pending, pending := [] }

def AsyncConnection.rollback (c : AsyncConnection) : AsyncConnection :=
  { c with pending := [] }

/-- Errors escaping a scrape sub-step.  `vetoBoxNotFound` — modelled
from the spec: `VetoBoxNotFoundError` is imported from
`scraper.models` in celery.py but its definition is not in the source
tree; per the spec it is the designated structural-mismatch error,
raised when the expected veto panel is absent.  Every other exception
is `otherError`. -/
inductive ScrapeError
  | vetoBoxNotFound (msg : String)
  | otherError (msg : String)
deriving Repr, DecidableEq

/-- Outcomes of the awaited sub-steps of `process_full_match`
(celery.py:271-298), in source order.  Modelled from the spec for the
extractors missing from the source tree
(`get_match_result_from_selector`, `get_map_stats_from_selector`,
`get_vetos_from_selector`): each extraction together with its insert
either yields rows for the match or raises.  `goto` is the single
navigation fetching the page content. -/
structure FullMatchSteps where
  goto : Except ScrapeError Unit
  match_result : Except ScrapeError (List Row)
  map_stats : Except ScrapeError (List Row)
  vetos : Except ScrapeError (List Row)
  player_stats : Except ScrapeError (List Row)
deriving Repr, DecidableEq

/-- `process_full_match` (celery.py:271-298): navigate once, run the
four extract-and-insert sub-steps on the same content, commit only if
all succeeded and return `{"status": "ok"}`; on any exception roll the
transaction back and re-raise. -/
def process_full_match (conn : AsyncConnection) (s : FullMatchSteps) :
    AsyncConnection × Except ScrapeError String :=
  match s.goto with
  | .error e => (conn.rollback, .error e)
  | .ok _ =>
    match s.match_result with
    | .error e => (conn.rollback, .error e)
    | .ok r1 =>
      let conn := conn.insertRows r1
      match s.map_stats with
      | .error e => (conn.rollback, .error e)
      | .ok r2 =>
        let conn := conn.insertRows r2
        match s.vetos with
        | .error e => (conn.rollback, .error e)
        | .ok r3 =>
          let conn := conn.insertRows r3
          match s.player_stats with
          | .error e => (conn.rollback, .error e)
          | .ok r4 =>
            let conn := conn.insertRows r4
            (conn.commit, .ok "ok")

/-- Retry bound of the `full_match` celery task (celery.py:370,
`max_retries=3`). -/
def full_match_max_retries : Nat := 3

/-- What the `full_match` task does after its body finished or raised. -/
inductive TaskOutcome
  | success (result : Option String)
  | retry (e : ScrapeError)
deriving Repr, DecidableEq

/-- The except clauses of `full_match` (celery.py:398-403):
`VetoBoxNotFoundError` → return `None`, a no-op success; any other
exception → `self.retry(exc=e)`, bounded by `full_match_max_retries`. -/
def full_match_handle_error : ScrapeError → TaskOutcome
  | .vetoBoxNotFound _ => .success none
  | .otherError m => .retry (.otherError m)

/-- The `full_match` task body (celery.py:370-403): `ensure_initialized`
and `process_full_match` run inside one `try`; a successful body
returns its result, an exception goes through the except clauses. -/
def full_match_task (ensure_init : Except ScrapeError Unit)
    (conn : AsyncConnection) (s : FullMatchSteps) :
    AsyncConnection × TaskOutcome :=
  match ensure_init with
  | .error e => (conn, full_match_handle_error e)
  | .ok _ =>
    match process_full_match conn s with
    | (c2, .ok v) => (c2, .success (some v))
    | (c2, .error e) => (c2, full_match_handle_error e)

/-! ### Crawl frontier (src/scraper/frontier.py) -/

def hltvBase : String := "https://www.hltv.org"

/-- The persistent visited set (the Redis set `hltv:visited_urls`),
modelled as the list of its members. -/
structure HLTVFrontier where
  visited : List String
deriving Repr, DecidableEq

/-- `HLTVFrontier.is_visited` (frontier.py:55-56): set membership. -/
def HLTVFrontier.is_visited (f : HLTVFrontier) (url : String) : Bool :=
  f.visited.contains url

/-- `HLTVFrontier.mark_visited` (frontier.py:58-59): `SADD`, a no-op on
an existing member. -/
def HLTVFrontier.mark_visited (f : HLTVFrontier) (url : String) :
    HLTVFrontier :=
  if f.visited.contains url then f else { visited := url :: f.visited }

/-- `__parse_links_on_page` (frontier.py:101-118): for each located
link's `href`, build the full URL; if it is not visited, mark it
visited and then enqueue a `full_match` task for it; otherwise skip it.
Returns the final frontier and the enqueued URLs in order.  The force
flag is not a parameter of this function in the source. -/
def parse_links_on_page (f : HLTVFrontier) :
    List (Option String) → HLTVFrontier × List String
  | [] => (f, [])
  | none :: rest => parse_links_on_page f rest
  | some href :: rest =>
    let full_url := hltvBase ++ href
    if f.is_visited full_url then parse_links_on_page f rest
    else
      let out := parse_links_on_page (f.mark_visited full_url) rest
      (out.1, full_url :: out.2)

/-- `HLTVFrontier.parse` (frontier.py:61-75) applied to the listing URL,
with the parser callback being `__parse_results_page`, which walks the
page's item links (`__parse_links_on_page`); `hrefs` are the `href`
attributes found there.  Without force, a visited listing URL is
skipped (returns `False`); otherwise the listing URL is marked visited
and the parser runs. -/
def HLTVFrontier.parse (f : HLTVFrontier) (url : String) (force : Bool)
    (hrefs : List (Option String)) :
    HLTVFrontier × List String × Bool :=
  if ¬force ∧ f.is_visited url then (f, [], false)
  else
    let f2 := f.mark_visited url
    let out := parse_links_on_page f2 hrefs
    (out.1, out.2, true)

/-- From the claim's words, for comparison with the source: item-level
processing that consults the force flag, re-enqueueing a visited item
URL when force is set. -/
def claim_parse_links_on_page (force : Bool) (f : HLTVFrontier) :
    List (Option String) → HLTVFrontier × List String
  | [] => (f, [])
  | none :: rest => claim_parse_links_on_page force f rest
  | some href :: rest =>
    let full_url := hltvBase ++ href
    if f.is_visited full_url ∧ ¬force then
      claim_parse_links_on_page force f rest
    else
      let out :=
        claim_parse_links_on_page force (f.mark_visited full_url) rest
      (out.1, full_url :: out.2)

/-- Setup outcomes whose browser step fails, a concrete instance used
in witnesses. -/
def setupFail : SetupSteps :=
  { start_playwright := .ok ()
    connect_browser := .error "browser launch failed"
    build_page_pool := .ok ()
    open_db_pool := .ok () }

/-- Fully successful setup outcomes, a concrete instance used in
witnesses. -/
def setupOk : SetupSteps :=
  { start_playwright := .ok ()
    connect_browser := .ok ()
    build_page_pool := .ok ()
    open_db_pool := .ok () }

/-- A frontier that has already visited one match URL, a concrete
instance used in witnesses. -/
def frontierW : HLTVFrontier :=
  { visited := ["https://www.hltv.org/matches/1"] }

/-- Hrefs of a listing page: one visited match, one new match appearing
twice, and one absent attribute, a concrete instance used in
witnesses. -/
def hrefsW : List (Option String) :=
  [some "/matches/1", some "/matches/2", none, some "/matches/2"]

/-- A set of fully successful full-match sub-step outcomes, each
producing one row for one match, a concrete instance used in
witnesses. -/
def stepsAllOk : FullMatchSteps :=
  { goto := .ok ()
    match_result := .ok [{ kind := .matchResultRow, match_url := "m1" }]
    map_stats := .ok [{ kind := .mapStatRow, match_url := "m1" }]
    vetos := .ok [{ kind := .vetoRow, match_url := "m1" }]
    player_stats := .ok [{ kind := .playerStatRow, match_url := "m1" }] }

/-- Sub-step outcomes where the veto panel is absent: the veto step
raises the structural-mismatch error after the earlier steps succeeded,
a concrete instance used in witnesses. -/
def stepsVetoMissing : FullMatchSteps :=
  { goto := .ok ()
    match_result := .ok [{ kind := .matchResultRow, match_url := "m1" }]
    map_stats := .ok [{ kind := .mapStatRow, match_url := "m1" }]
    vetos := .error (.vetoBoxNotFound "no veto box")
    player_stats := .ok [{ kind := .playerStatRow, match_url := "m1" }] }

/-- From the claim's words, for comparison with the source: an operation
counter to which every acquire first charges one operation, with a
rotation resetting it to zero when it has reached the budget before the
acquisition proceeds (so the rotating acquisition's own charge lands on
the fresh context).  `claimChargedOps b n` is the counter after `n`
acquires from a fresh context. -/
def claimChargedOps (budget : Int) : Nat → Int
  | 0 => 0
  | n + 1 =>
    let o := claimChargedOps budget n
    if o = budget then 1 else o + 1

/-- The pool state produced by `create_page_pool 10 3 1 30000 3`
(max 10, initial 3, minimum 1, operation budget 3), a concrete instance
used in witnesses. -/
def poolBoundW : PagePool :=
  { max_amount_of_concurrent_pages := 10
    initial_page_size := 3
    minimum_page_size := 1
    max_operations_per_context := 3
    default_timeout := 30000
    free_pages := 3
    current_page_count := 3
    operation_amount_in_current_context := 0
    in_use := 0
    rotations := 0 }

/-- The pool state produced by `create_page_pool 10 1 1 30000 2`
(max 10, initial 1, minimum 1, operation budget 2), a concrete instance
used in witnesses. -/
def poolBudgetTwo : PagePool :=
  { max_amount_of_concurrent_pages := 10
    initial_page_size := 1
    minimum_page_size := 1
    max_operations_per_context := 2
    default_timeout := 30000
    free_pages := 1
    current_page_count := 1
    operation_amount_in_current_context := 0
    in_use := 0
    rotations := 0 }

/-! ## Helper lemmas -/

theorem PagePool.params_rotate (p : PagePool) :
    (p.create_new_context_if_needed).params = p.params := by
  unfold PagePool.create_new_context_if_needed
  split <;> rfl

theorem PagePool.params_step (p : PagePool) (o : PoolOp) :
    (p.step o).params = p.params := by
  cases o with
  | acquire =>
      show (p.acquire).params = p.params
      unfold PagePool.acquire
      have h := p.params_rotate
      dsimp only
      split
      · rw [← h]; rfl
      · rw [← h]; rfl
  | release =>
      show (p.release).params = p.params
      unfold PagePool.release
      split <;> rfl

theorem PagePool.params_run (p : PagePool) (l : List PoolOp) :
    (p.run l).params = p.params := by
  induction l generalizing p with
  | nil => rfl
  | cons o rest ih =>
      show ((p.step o).run rest).params = p.params
      rw [ih, p.params_step]

theorem PagePool.countBound_step (p : PagePool) (o : PoolOp)
    (h : p.countBound) : (p.step o).countBound := by
  obtain ⟨h1, h2⟩ := h
  cases o with
  | acquire =>
      show (p.acquire).countBound
      unfold PagePool.acquire PagePool.create_new_context_if_needed
        PagePool.countBound
      dsimp only
      split <;> split <;> (dsimp only at *) <;> omega
  | release =>
      show (p.release).countBound
      unfold PagePool.release PagePool.countBound
      split <;> (dsimp only at *) <;> omega

theorem PagePool.countBound_run (p : PagePool) (l : List PoolOp)
    (h : p.countBound) : (p.run l).countBound := by
  induction l generalizing p with
  | nil => exact h
  | cons o rest ih => exact ih _ (p.countBound_step o h)

theorem PagePool.run_append (p : PagePool) (l1 l2 : List PoolOp) :
    p.run (l1 ++ l2) = (p.run l1).run l2 :=
  List.foldl_append _ _ _ _

theorem create_page_pool_eq {max0 init0 min0 t0 b0 : Int} {p : PagePool}
    (h : create_page_pool max0 init0 min0 t0 b0 = .ok p) :
    init0 ≤ max0 ∧
    p = { max_amount_of_concurrent_pages := if max0 ≤ 0 then 1 else max0
          initial_page_size := if init0 ≤ 0 then 1 else init0
          minimum_page_size := min0
          max_operations_per_context := b0
          default_timeout := t0
          free_pages := init0.toNat
          current_page_count := if init0 ≤ 0 then 1 else init0
          operation_amount_in_current_context := 0
          in_use := 0
          rotations := 0 } := by
  unfold create_page_pool PagePool.make at h
  split at h
  · exact absurd h (by simp)
  · refine ⟨by omega, ?_⟩
    simp only [ite_self, Except.ok.injEq] at h
    exact h.symm

theorem PagePool.rotate_charge (p : PagePool)
    (h : p.operation_amount_in_current_context <
      p.max_operations_per_context) :
    p.create_new_context_if_needed =
      { p with operation_amount_in_current_context :=
          p.operation_amount_in_current_context + 1 } := by
  unfold PagePool.create_new_context_if_needed
  rw [if_pos h]

theorem PagePool.rotate_reset (p : PagePool)
    (h : ¬ p.operation_amount_in_current_context <
      p.max_operations_per_context) :
    p.create_new_context_if_needed =
      { p with free_pages := p.initial_page_size.toNat
               operation_amount_in_current_context := 0
               current_page_count := p.initial_page_size
               rotations := p.rotations + 1 } := by
  unfold PagePool.create_new_context_if_needed
  rw [if_neg h]

theorem PagePool.acquire_ops (p : PagePool) :
    (p.acquire).operation_amount_in_current_context =
      (p.create_new_context_if_needed).operation_amount_in_current_context ∧
    (p.acquire).rotations = (p.create_new_context_if_needed).rotations := by
  unfold PagePool.acquire
  dsimp only
  split <;> exact ⟨rfl, rfl⟩

theorem succ_mod_div_of_lt {k B : Nat} (h : k % (B + 1) < B) :
    (k + 1) % (B + 1) = k % (B + 1) + 1 ∧
    (k + 1) / (B + 1) = k / (B + 1) := by
  have hd := Nat.div_add_mod k (B + 1)
  have e : k + 1 = (k % (B + 1) + 1) + (B + 1) * (k / (B + 1)) := by omega
  constructor
  · rw [e, Nat.add_mul_mod_self_left, Nat.mod_eq_of_lt (by omega)]
  · rw [e, Nat.add_mul_div_left _ _ (Nat.succ_pos B),
      Nat.div_eq_of_lt (by omega)]
    omega

theorem succ_mod_div_of_eq {k B : Nat} (h : k % (B + 1) = B) :
    (k + 1) % (B + 1) = 0 ∧ (k + 1) / (B + 1) = k / (B + 1) + 1 := by
  have hd := Nat.div_add_mod k (B + 1)
  have e : k + 1 = (B + 1) * (k / (B + 1) + 1) := by
    rw [Nat.mul_succ]; omega
  constructor
  · rw [e, Nat.mul_mod_right]
  · rw [e, Nat.mul_div_cancel_left _ (Nat.succ_pos B)]

theorem PagePool.counted_acquire (p : PagePool) (h : p.counted)
    (hen : p.acquireEnabled = true)
    (hlt : p.operation_amount_in_current_context <
      p.max_operations_per_context) :
    (p.acquire).counted ∧
    (p.acquire).operation_amount_in_current_context =
      p.operation_amount_in_current_context + 1 := by
  obtain ⟨hc, ho⟩ := h
  unfold PagePool.acquireEnabled at hen
  rw [p.rotate_charge hlt] at hen
  simp only [Bool.or_eq_true, Bool.and_eq_true, decide_eq_true_eq] at hen
  unfold PagePool.acquire PagePool.counted
  rw [p.rotate_charge hlt]
  dsimp only
  split <;> (dsimp only at *) <;> (constructor <;> omega)

theorem PagePool.counted_release (p : PagePool) (h : p.counted)
    (hen : p.releaseEnabled = true) :
    (p.release).counted ∧
    (p.release).operation_amount_in_current_context =
      p.operation_amount_in_current_context := by
  obtain ⟨hc, ho⟩ := h
  unfold PagePool.releaseEnabled at hen
  simp only [Bool.or_eq_true, Bool.and_eq_true, decide_eq_true_eq] at hen
  unfold PagePool.release PagePool.counted
  split <;> (dsimp only at *) <;> refine ⟨⟨?_, ?_⟩, rfl⟩ <;> omega

theorem PagePool.counted_run (l : List PoolOp) : ∀ p : PagePool,
    p.counted → p.legal l = true →
    p.operation_amount_in_current_context + ((acquireCount l : Nat) : Int) ≤
      p.max_operations_per_context →
    (p.run l).counted := by
  induction l with
  | nil => exact fun p h _ _ => h
  | cons o rest ih =>
    intro p h hleg hops
    rw [PagePool.legal] at hleg
    simp only [Bool.and_eq_true] at hleg
    obtain ⟨hen, hrest⟩ := hleg
    show ((p.step o).run rest).counted
    have hbudget := congrArg (fun t => t.2.2.2.1) (p.params_step o)
    unfold PagePool.params at hbudget
    dsimp only at hbudget
    cases o with
    | acquire =>
      have hcnt : acquireCount (.acquire :: rest) = acquireCount rest + 1 :=
        rfl
      rw [hcnt] at hops
      have hlt : p.operation_amount_in_current_context <
          p.max_operations_per_context := by push_cast at hops; omega
      obtain ⟨hc, ho⟩ := p.counted_acquire h hen hlt
      apply ih _ hc hrest
      show p.acquire.operation_amount_in_current_context +
        ((acquireCount rest : Nat) : Int) ≤
        p.acquire.max_operations_per_context
      have hb2 : p.acquire.max_operations_per_context =
          p.max_operations_per_context := hbudget
      rw [ho, hb2]
      push_cast at hops ⊢
      omega
    | release =>
      have hcnt : acquireCount (.release :: rest) = acquireCount rest := rfl
      rw [hcnt] at hops
      obtain ⟨hc, ho⟩ := p.counted_release h hen
      apply ih _ hc hrest
      show p.release.operation_amount_in_current_context +
        ((acquireCount rest : Nat) : Int) ≤
        p.release.max_operations_per_context
      have hb2 : p.release.max_operations_per_context =
          p.max_operations_per_context := hbudget
      rw [ho, hb2]
      exact hops

theorem PagePool.acquire_cadence (B k : Nat) (q : PagePool)
    (hq : q.max_operations_per_context = ((B : Nat) : Int))
    (ho : q.operation_amount_in_current_context =
      ((k % (B + 1) : Nat) : Int))
    (hr : q.rotations = k / (B + 1)) :
    q.acquire.operation_amount_in_current_context =
      (((k + 1) % (B + 1) : Nat) : Int) ∧
    q.acquire.rotations = (k + 1) / (B + 1) := by
  obtain ⟨ha1, ha2⟩ := q.acquire_ops
  rcases Nat.lt_or_ge (k % (B + 1)) B with hlt | hge
  · obtain ⟨hm, hd⟩ := succ_mod_div_of_lt hlt
    have hcl : q.operation_amount_in_current_context <
        q.max_operations_per_context := by
      rw [ho, hq]; exact_mod_cast hlt
    rw [ha1, ha2, q.rotate_charge hcl]
    refine ⟨?_, ?_⟩ <;> dsimp only
    · rw [ho, hm]; push_cast; ring
    · rw [hr, hd]
  · have heq : k % (B + 1) = B :=
      le_antisymm (Nat.le_of_lt_succ (Nat.mod_lt _ (Nat.succ_pos B))) hge
    obtain ⟨hm, hd⟩ := succ_mod_div_of_eq heq
    have hcl : ¬ q.operation_amount_in_current_context <
        q.max_operations_per_context := by
      rw [ho, hq, heq]; omega
    rw [ha1, ha2, q.rotate_reset hcl]
    refine ⟨?_, ?_⟩ <;> dsimp only
    · rw [hm]; norm_num
    · rw [hr, hd]

theorem PagePool.run_acquire_cadence (B : Nat) (p : PagePool)
    (hq : p.max_operations_per_context = ((B : Nat) : Int))
    (ho : p.operation_amount_in_current_context = 0)
    (hr : p.rotations = 0) (n : Nat) :
    (p.run (List.replicate n .acquire)).operation_amount_in_current_context =
      ((n % (B + 1) : Nat) : Int) ∧
    (p.run (List.replicate n .acquire)).rotations = n / (B + 1) := by
  induction n with
  | zero =>
      refine ⟨?_, ?_⟩ <;> simp [PagePool.run, ho, hr]
  | succ n ih =>
      have hstep : p.run (List.replicate (n + 1) .acquire) =
          (p.run (List.replicate n .acquire)).acquire := by
        rw [List.replicate_succ', PagePool.run_append]
        rfl
      rw [hstep]
      have hb := congrArg (fun t => t.2.2.2.1)
        (p.params_run (List.replicate n .acquire))
      unfold PagePool.params at hb
      dsimp only at hb
      exact PagePool.acquire_cadence B n _ (hb.trans hq) ih.1 ih.2

/-! ## Claim theorems -/

/-- C3, counterexample: the claimed invariant
`0 ≤ current_page_count ≤ max_amount_of_concurrent_pages` fails on the
code.  On the pool from `create_page_pool 10 3 1 30000 3`, the legal
sequence of four acquires (the fourth triggers a context rotation while
three handles are checked out) followed by four releases drives
`current_page_count` to `-1`. -/
theorem c3_count_goes_negative :
    (create_page_pool 10 3 1 30000 3).map (fun p =>
      (p.legal [.acquire, .acquire, .acquire, .acquire,
                .release, .release, .release, .release],
       (p.run [.acquire, .acquire, .acquire, .acquire,
               .release, .release, .release, .release]).current_page_count)) =
      .ok (true, -1) := by decide

/-- C3, amended: on any pool built by `create_page_pool`,
`current_page_count` never exceeds `max_amount_of_concurrent_pages`
under any operation sequence; and it stays non-negative on every legal
sequence whose number of acquires stays within the operation budget so
that no context rotation fires (a rotation while pages are checked out
can drive the count negative, as the counterexample shows). -/
theorem c3_pool_count_bounds (max0 init0 min0 t0 b0 : Int) (p : PagePool)
    (h : create_page_pool max0 init0 min0 t0 b0 = .ok p) (hinit : 1 ≤ init0)
    (l : List PoolOp) :
    (p.run l).current_page_count ≤ p.max_amount_of_concurrent_pages ∧
    (p.legal l = true → ((acquireCount l : Nat) : Int) ≤ b0 →
      0 ≤ (p.run l).current_page_count) := by
  obtain ⟨hle, hp⟩ := create_page_pool_eq h
  have hmax := congrArg (fun t => t.1) (p.params_run l)
  unfold PagePool.params at hmax
  dsimp only at hmax
  constructor
  · have hb : p.countBound := by
      rw [hp]
      constructor <;> dsimp only <;> split_ifs <;> omega
    obtain ⟨-, h3⟩ := p.countBound_run l hb
    rw [hmax] at h3
    rw [hp] at h3 ⊢
    dsimp only at h3 ⊢
    exact h3
  · intro hleg hops
    have hc : p.counted := by
      rw [hp]
      constructor <;> dsimp only <;> (try split_ifs) <;> omega
    have hops2 : p.operation_amount_in_current_context +
        ((acquireCount l : Nat) : Int) ≤ p.max_operations_per_context := by
      rw [hp]; dsimp only; omega
    obtain ⟨h3, -⟩ := PagePool.counted_run l p hc hleg hops2
    omega

/-- C3, witness for the amended theorem at
`create_page_pool 10 3 1 30000 3` and the legal sequence of a single
acquire. -/
theorem c3_pool_count_bounds_witness :
    (poolBoundW.run [PoolOp.acquire]).current_page_count ≤
      poolBoundW.max_amount_of_concurrent_pages ∧
    (0 : Int) ≤ (poolBoundW.run [PoolOp.acquire]).current_page_count := by
  have h := c3_pool_count_bounds 10 3 1 30000 3 poolBoundW (by decide)
    (by decide) [PoolOp.acquire]
  exact ⟨h.1, h.2 (by decide) (by decide)⟩

/-- C4: the claim that a blocked `acquire` lets a concurrent `release`
proceed and is eventually unblocked by it is violated: on a pool with
`max = 1` whose only page is checked out, the acquirer reaches
`free_pages.get()` still holding the pool lock after four scheduler
steps, and in that configuration no coroutine can step at all — the
release waits forever on the lock and the acquire waits forever on the
queue, a deadlock. -/
theorem c4_blocked_acquire_deadlocks_release :
    exhaustedConf.runAcq 4 =
      { exhaustedConf with
          lock := some LockOwner.acquirer
          operation_amount_in_current_context := 2
          acqPc := AcqPc.queueGetWait } ∧
    (exhaustedConf.runAcq 4).next = [] ∧
    (exhaustedConf.runAcq 4).acqPc ≠ AcqPc.done ∧
    (exhaustedConf.runAcq 4).relPc ≠ RelPc.done := by
  exact ⟨by decide, by decide, by decide, by decide⟩

/-- C5, counterexample: not every acquire charges one operation to the
current context.  With an operation budget of 1, after two legal
acquires the pool's counter is `0` — the second acquire performed the
rotation and was not charged — while the claim's charging discipline
(`claimChargedOps`) would leave the counter at `1`. -/
theorem c5_rotating_acquire_not_charged :
    (create_page_pool 10 1 1 30000 1).map (fun p =>
      (p.legal [.acquire, .acquire],
       (p.run [.acquire, .acquire]).operation_amount_in_current_context,
       (p.run [.acquire, .acquire]).rotations)) = .ok (true, 0, 1) ∧
    claimChargedOps 1 2 = 1 ∧ (0 : Int) ≠ 1 := by
  exact ⟨by decide, by decide, by decide⟩

/-- C5, amended: acquires that do not rotate charge one operation, and
the rotating acquire is uncharged, so acquisitions cycle with period
`opBudget + 1`: after `n` acquires the counter reads
`n % (opBudget + 1)` and exactly `n / (opBudget + 1)` rotations have
happened; at each rotation (an acquire with `(opBudget + 1) ∣ n`) the
free pages are replaced by `initial_page_size` fresh ones (one of which
that acquire takes) and `current_page_count` is reset to
`initial_page_size`. -/
theorem c5_rotation_cadence (max0 init0 min0 t0 b0 : Int) (p : PagePool)
    (h : create_page_pool max0 init0 min0 t0 b0 = .ok p) (hinit : 1 ≤ init0)
    (hb : 1 ≤ b0) (n : Nat)
    (hleg : p.legal (List.replicate n .acquire) = true) :
    (p.run (List.replicate n .acquire)).operation_amount_in_current_context =
      ((n % (b0.toNat + 1) : Nat) : Int) ∧
    (p.run (List.replicate n .acquire)).rotations = n / (b0.toNat + 1) ∧
    ((b0.toNat + 1) ∣ n → 0 < n →
      (p.run (List.replicate n .acquire)).free_pages = init0.toNat - 1 ∧
      (p.run (List.replicate n .acquire)).current_page_count = init0) := by
  clear hleg
  obtain ⟨hle, hp⟩ := create_page_pool_eq h
  have hq : p.max_operations_per_context = ((b0.toNat : Nat) : Int) := by
    rw [hp]; dsimp only; omega
  have ho : p.operation_amount_in_current_context = 0 := by rw [hp]
  have hr : p.rotations = 0 := by rw [hp]
  have main := PagePool.run_acquire_cadence b0.toNat p hq ho hr
  refine ⟨(main n).1, (main n).2, ?_⟩
  intro hdvd hpos
  obtain ⟨m, rfl⟩ : ∃ m, n = m + 1 := ⟨n - 1, by omega⟩
  have hstep : p.run (List.replicate (m + 1) .acquire) =
      (p.run (List.replicate m .acquire)).acquire := by
    rw [List.replicate_succ', PagePool.run_append]; rfl
  have hmB : m % (b0.toNat + 1) = b0.toNat := by
    rcases Nat.lt_or_ge (m % (b0.toNat + 1)) b0.toNat with hlt | hge
    · exfalso
      obtain ⟨hm, -⟩ := succ_mod_div_of_lt hlt
      obtain ⟨c, hc⟩ := hdvd
      rw [hc, Nat.mul_mod_right] at hm
      omega
    · exact le_antisymm
        (Nat.le_of_lt_succ (Nat.mod_lt _ (Nat.succ_pos _))) hge
  have hops_m := (main m).1
  have hbq := congrArg (fun t => t.2.2.2.1)
    (p.params_run (List.replicate m .acquire))
  unfold PagePool.params at hbq
  dsimp only at hbq
  have hiq := congrArg (fun t => t.2.1)
    (p.params_run (List.replicate m .acquire))
  unfold PagePool.params at hiq
  dsimp only at hiq
  have hqinit : (p.run (List.replicate m .acquire)).initial_page_size =
      init0 := by rw [hiq, hp]; dsimp only; omega
  have hcl : ¬ (p.run (List.replicate m .acquire)).operation_amount_in_current_context <
      (p.run (List.replicate m .acquire)).max_operations_per_context := by
    rw [hops_m, hmB, hbq, hq]; omega
  rw [hstep]
  unfold PagePool.acquire
  rw [(p.run (List.replicate m .acquire)).rotate_reset hcl]
  dsimp only
  rw [hqinit]
  split
  · rename_i hcond
    exfalso
    omega
  · exact ⟨rfl, rfl⟩

/-- C5, witness for the amended theorem at
`create_page_pool 10 1 1 30000 2` with three legal acquires, the third
of which rotates. -/
theorem c5_rotation_cadence_witness :
    (poolBudgetTwo.run
      (List.replicate 3 PoolOp.acquire)).operation_amount_in_current_context =
      0 ∧
    (poolBudgetTwo.run (List.replicate 3 PoolOp.acquire)).rotations = 1 ∧
    (poolBudgetTwo.run (List.replicate 3 PoolOp.acquire)).free_pages = 0 ∧
    (poolBudgetTwo.run
      (List.replicate 3 PoolOp.acquire)).current_page_count = 1 := by
  have h := c5_rotation_cadence 10 1 1 30000 2 poolBudgetTwo (by decide)
    (by decide) (by decide) 3 (by decide)
  obtain ⟨h1, h2, h3⟩ := h
  obtain ⟨h4, h5⟩ := h3 (by decide) (by decide)
  refine ⟨?_, ?_, ?_, ?_⟩
  · rw [h1]; decide
  · rw [h2]; decide
  · rw [h4]; decide
  · exact h5

/-- C6: the constructor is claimed to clamp a minimum page size that is
non-positive or larger than the initial size to the initial size; the
code's guard body is the self-assignment
`minimum_page_size = minimum_page_size` (pool.py:59-60) and clamps
nothing: with `minimum = 0` the stored value is `0` (violating
`0 < minimum`), with `minimum = 7 > initial = 5` it stays `7`. -/
theorem c6_minimum_size_left_unclamped :
    (PagePool.make 10 5 0 30000 200 5).map
      (fun p => p.minimum_page_size) = .ok 0 ∧
    (PagePool.make 10 5 7 30000 200 5).map
      (fun p => p.minimum_page_size) = .ok 7 := by
  exact ⟨by decide, by decide⟩

/-- C7: on release of a checked-out page, when the free queue already
holds more than `minimum_page_size` pages the page is closed and
`current_page_count` decremented with the queue untouched; otherwise the
page is reset and requeued; hence a release never lifts the free queue
beyond `max(queue, minimum + 1)`, trending the pool back to the minimum
when idle. -/
theorem c7_release_shrink_policy (p : PagePool) (h : 0 < p.in_use) :
    (p.minimum_page_size < (p.free_pages : Int) →
      p.release = { p with current_page_count := p.current_page_count - 1,
                           in_use := p.in_use - 1 }) ∧
    (¬ p.minimum_page_size < (p.free_pages : Int) →
      p.release = { p with free_pages := p.free_pages + 1,
                           in_use := p.in_use - 1 }) ∧
    ((p.release.free_pages : Int) ≤
      max (p.free_pages : Int) (p.minimum_page_size + 1)) := by
  refine ⟨fun hgt => ?_, fun hle => ?_, ?_⟩
  · unfold PagePool.release; rw [if_pos hgt]
  · unfold PagePool.release; rw [if_neg hle]
  · unfold PagePool.release
    split <;> dsimp only <;> rw [le_max_iff]
    · left; exact le_refl _
    · right; rename_i hle; push_cast; omega

/-- C7, witness: on `create_page_pool 10 3 1 30000 3` after one acquire
(two free pages, one checked out, minimum 1), release closes the page
and decrements the count. -/
theorem c7_release_shrink_policy_witness :
    0 < (poolBoundW.run [PoolOp.acquire]).in_use ∧
    (poolBoundW.run [PoolOp.acquire]).release =
      { (poolBoundW.run [PoolOp.acquire]) with
        current_page_count :=
          (poolBoundW.run [PoolOp.acquire]).current_page_count - 1,
        in_use := (poolBoundW.run [PoolOp.acquire]).in_use - 1 } := by
  exact ⟨by decide,
    (c7_release_shrink_policy (poolBoundW.run [PoolOp.acquire])
      (by decide)).1 (by decide)⟩

/-- C8, counterexample: `close_all_pages` does not close checked-out
handles and acquire does not fail afterwards.  On
`create_page_pool 10 2 1 30000 200` with one page checked out,
`close_all_pages` leaves that handle checked out (`in_use = 1`), and the
next `acquire` is enabled and succeeds, handing out a page
(`in_use = 2`) instead of failing with a pool-closed error — the pool
has no closed state at all. -/
theorem c8_shutdown_misses_checked_out :
    (create_page_pool 10 2 1 30000 200).map (fun p =>
      (((p.run [.acquire]).close_all_pages).in_use,
       ((p.run [.acquire]).close_all_pages).acquireEnabled,
       (((p.run [.acquire]).close_all_pages).acquire).in_use)) =
      .ok (1, true, 2) := by decide

/-- C8, amended: `close_all_pages` drains and closes exactly the free
pages (the queue becomes empty), leaves checked-out handles and
`current_page_count` untouched, and — there being no pool-closed
state — a subsequent acquire on a pool with spare capacity still
succeeds. -/
theorem c8_close_all_pages_only_free (p : PagePool)
    (hcap : p.current_page_count < p.max_amount_of_concurrent_pages)
    (hinit : 1 ≤ p.initial_page_size) :
    p.close_all_pages.free_pages = 0 ∧
    p.close_all_pages.in_use = p.in_use ∧
    p.close_all_pages.current_page_count = p.current_page_count ∧
    p.close_all_pages.acquireEnabled = true := by
  refine ⟨rfl, rfl, rfl, ?_⟩
  unfold PagePool.acquireEnabled PagePool.close_all_pages
    PagePool.create_new_context_if_needed
  dsimp only
  split
  · simp only [Bool.or_eq_true, Bool.and_eq_true, decide_eq_true_eq, true_and,
      lt_self_iff_false, or_false]
    exact hcap
  · simp only [Bool.or_eq_true, Bool.and_eq_true, decide_eq_true_eq]
    right
    omega

/-- C8, witness for the amended theorem at
`create_page_pool 10 3 1 30000 3`. -/
theorem c8_close_all_pages_only_free_witness :
    poolBoundW.close_all_pages.free_pages = 0 ∧
    poolBoundW.close_all_pages.in_use = poolBoundW.in_use ∧
    poolBoundW.close_all_pages.current_page_count =
      poolBoundW.current_page_count ∧
    poolBoundW.close_all_pages.acquireEnabled = true :=
  c8_close_all_pages_only_free poolBoundW (by decide) (by decide)

theorem process_full_match_error_rollback (conn : AsyncConnection)
    (s : FullMatchSteps) (e : ScrapeError)
    (h : (process_full_match conn s).2 = .error e) :
    (process_full_match conn s).1.committed = conn.committed ∧
    (process_full_match conn s).1.pending = [] := by
  rcases s with ⟨g, m1, m2, m3, m4⟩
  cases g <;> cases m1 <;> cases m2 <;> cases m3 <;> cases m4 <;>
    simp_all [process_full_match, AsyncConnection.rollback,
      AsyncConnection.insertRows, AsyncConnection.commit]

/-- C1: `process_full_match` is transactional.  On any sub-step error
the transaction is rolled back: the visible (committed) rows afterwards
are exactly those visible before, so no rows for the item appear, and
the error is re-raised.  Only when the navigation and all four
extract-and-insert sub-steps succeed does it commit, making exactly
their rows visible and returning the `"ok"` status marker; conversely a
success result implies every sub-step succeeded. -/
theorem c1_full_match_transaction (conn : AsyncConnection)
    (s : FullMatchSteps) (hp : conn.pending = []) :
    (∀ e, (process_full_match conn s).2 = .error e →
      (process_full_match conn s).1.committed = conn.committed ∧
      (process_full_match conn s).1.pending = []) ∧
    (∀ r1 r2 r3 r4, s.goto = .ok () → s.match_result = .ok r1 →
      s.map_stats = .ok r2 → s.vetos = .ok r3 → s.player_stats = .ok r4 →
      process_full_match conn s =
        ({ committed := conn.committed ++ (r1 ++ r2 ++ r3 ++ r4),
           pending := [] }, .ok "ok")) ∧
    (∀ v, (process_full_match conn s).2 = .ok v →
      s.goto = .ok () ∧ (∃ r, s.match_result = .ok r) ∧
      (∃ r, s.map_stats = .ok r) ∧ (∃ r, s.vetos = .ok r) ∧
      (∃ r, s.player_stats = .ok r)) := by
  refine ⟨fun e he => process_full_match_error_rollback conn s e he,
    ?_, ?_⟩
  · intro r1 r2 r3 r4 h0 h1 h2 h3 h4
    rcases s with ⟨g, m1, m2, m3, m4⟩
    dsimp only at h0 h1 h2 h3 h4
    subst h0 h1 h2 h3 h4
    rcases conn with ⟨cc, cp⟩
    dsimp only at hp
    subst hp
    simp [process_full_match, AsyncConnection.insertRows,
      AsyncConnection.commit]
  · intro v hv
    rcases s with ⟨g, m1, m2, m3, m4⟩
    cases g <;> cases m1 <;> cases m2 <;> cases m3 <;> cases m4 <;>
      simp_all [process_full_match]

/-- C1, witness: on an empty connection with all sub-steps succeeding,
processing commits the four rows and returns the success marker. -/
theorem c1_full_match_transaction_witness :
    process_full_match ⟨[], []⟩ stepsAllOk =
      ({ committed := [] ++
          ([{ kind := .matchResultRow, match_url := "m1" }] ++
           [{ kind := .mapStatRow, match_url := "m1" }] ++
           [{ kind := .vetoRow, match_url := "m1" }] ++
           [{ kind := .playerStatRow, match_url := "m1" }]),
         pending := [] }, .ok "ok") :=
  (c1_full_match_transaction ⟨[], []⟩ stepsAllOk rfl).2.1
    [{ kind := .matchResultRow, match_url := "m1" }]
    [{ kind := .mapStatRow, match_url := "m1" }]
    [{ kind := .vetoRow, match_url := "m1" }]
    [{ kind := .playerStatRow, match_url := "m1" }]
    rfl rfl rfl rfl rfl

/-- C2: when the body of the `full_match` task fails with the
structural-mismatch error (`VetoBoxNotFoundError`, raised when the
expected veto panel is absent), the task catches it and returns `None`
— a no-op success, not a retry — and the rolled-back transaction has
persisted nothing; any other error of the body, and a failing
`ensure_initialized` alike, is turned into a retry signal (bounded by
`full_match_max_retries`). -/
theorem c2_veto_box_not_retried (conn : AsyncConnection)
    (s : FullMatchSteps) :
    (∀ m, (process_full_match conn s).2 = .error (.vetoBoxNotFound m) →
      full_match_task (.ok ()) conn s =
        ((process_full_match conn s).1, .success none) ∧
      (full_match_task (.ok ()) conn s).1.committed = conn.committed) ∧
    (∀ m, (process_full_match conn s).2 = .error (.otherError m) →
      (full_match_task (.ok ()) conn s).2 = .retry (.otherError m)) ∧
    (∀ m, full_match_task (.error (.otherError m)) conn s =
      (conn, .retry (.otherError m))) := by
  refine ⟨fun m hm => ?_, fun m hm => ?_, fun m => rfl⟩
  · obtain ⟨hc1, -⟩ := process_full_match_error_rollback conn s _ hm
    cases hq : process_full_match conn s with
    | mk c2 r =>
      rw [hq] at hm hc1
      dsimp only at hm hc1
      subst hm
      constructor
      · unfold full_match_task
        rw [hq]
        rfl
      · unfold full_match_task
        rw [hq]
        exact hc1
  · cases hq : process_full_match conn s with
    | mk c2 r =>
      rw [hq] at hm
      dsimp only at hm
      subst hm
      unfold full_match_task
      rw [hq]
      rfl

/-- C2, witness: with the veto sub-step raising the structural-mismatch
error on an empty connection, the task returns the no-op success and
nothing is committed. -/
theorem c2_veto_box_not_retried_witness :
    full_match_task (.ok ()) ⟨[], []⟩ stepsVetoMissing =
      ((process_full_match ⟨[], []⟩ stepsVetoMissing).1, .success none) ∧
    (full_match_task (.ok ()) ⟨[], []⟩ stepsVetoMissing).1.committed =
      [] :=
  (c2_veto_box_not_retried ⟨[], []⟩ stepsVetoMissing).1 "no veto box"
    (by decide)

/-- C9: a failing bootstrap in `ensure_initialized` propagates the
error to the caller and leaves `_is_initialized` unset (the background
loop, once started, persists), so a later call re-runs `setup()` and
can succeed; the flag becomes set exactly when the whole setup —
Playwright start, browser, page pool, database pool — completed
successfully (or it was already set). -/
theorem c9_init_failure_retryable (g : WorkerGlobals) (s : SetupSteps)
    (e : String) (hg : g.is_initialized = false)
    (hs : run_setup s = .error e) :
    ensure_initialized g s =
      ({ is_initialized := false, event_loop_started := true },
        .error e) ∧
    (∀ s2, run_setup s2 = .ok () →
      (ensure_initialized (ensure_initialized g s).1 s2).1.is_initialized =
        true) ∧
    (∀ g2 s2, (ensure_initialized g2 s2).1.is_initialized = true ↔
      (g2.is_initialized = true ∨ run_setup s2 = .ok ())) ∧
    (∀ s2, run_setup s2 = .ok () ↔
      (s2.start_playwright = .ok () ∧ s2.connect_browser = .ok () ∧
       s2.build_page_pool = .ok () ∧ s2.open_db_pool = .ok ())) := by
  have h1 : ensure_initialized g s =
      ({ is_initialized := false, event_loop_started := true },
        .error e) := by
    rcases g with ⟨gi, gl⟩
    dsimp only at hg
    subst hg
    simp [ensure_initialized, hs]
  refine ⟨h1, ?_, ?_, ?_⟩
  · intro s2 h2
    rw [h1]
    simp [ensure_initialized, h2]
  · intro g2 s2
    rcases g2 with ⟨gi, gl⟩
    cases gi
    · cases hr : run_setup s2 with
      | ok u => cases u; simp [ensure_initialized, hr]
      | error e2 => simp [ensure_initialized, hr]
    · simp [ensure_initialized]
  · intro s2
    rcases s2 with ⟨a, b, c, d⟩
    cases a <;> cases b <;> cases c <;> cases d <;>
      simp_all [run_setup]

/-- C9, witness: with a failing browser step the call returns the error
and stays uninitialized; the next call with a successful setup
initializes. -/
theorem c9_init_failure_retryable_witness :
    ensure_initialized ⟨false, false⟩ setupFail =
      ({ is_initialized := false, event_loop_started := true },
        .error "browser launch failed") ∧
    (ensure_initialized (ensure_initialized ⟨false, false⟩ setupFail).1
      setupOk).1.is_initialized = true := by
  have h := c9_init_failure_retryable ⟨false, false⟩ setupFail
    "browser launch failed" rfl (by decide)
  exact ⟨h.1, h.2.1 setupOk (by decide)⟩

theorem HLTVFrontier.is_visited_iff (f : HLTVFrontier) (u : String) :
    f.is_visited u = true ↔ u ∈ f.visited :=
  List.elem_iff

theorem HLTVFrontier.mem_mark_visited (f : HLTVFrontier) (u v : String) :
    v ∈ (f.mark_visited u).visited ↔ v = u ∨ v ∈ f.visited := by
  unfold HLTVFrontier.mark_visited
  split
  · rename_i h
    have hu : u ∈ f.visited := (f.is_visited_iff u).mp h
    constructor
    · exact fun hv => Or.inr hv
    · rintro (rfl | hv)
      · exact hu
      · exact hv
  · simp [List.mem_cons]

theorem visited_mono_parse_links (l : List (Option String)) :
    ∀ (f : HLTVFrontier) (u : String), u ∈ f.visited →
      u ∈ (parse_links_on_page f l).1.visited := by
  induction l with
  | nil => exact fun f u hu => hu
  | cons hd tl ih =>
    intro f u hu
    cases hd with
    | none => exact ih f u hu
    | some href =>
      simp only [parse_links_on_page]
      split
      · exact ih f u hu
      · dsimp only
        exact ih _ u ((f.mem_mark_visited _ u).mpr (Or.inr hu))

theorem not_enqueued_of_visited (l : List (Option String)) :
    ∀ (f : HLTVFrontier) (u : String), f.is_visited u = true →
      u ∉ (parse_links_on_page f l).2 := by
  induction l with
  | nil => exact fun f u _ h => absurd h (List.not_mem_nil u)
  | cons hd tl ih =>
    intro f u hu
    cases hd with
    | none => exact ih f u hu
    | some href =>
      simp only [parse_links_on_page]
      split
      · exact ih f u hu
      · dsimp only
        intro hmem
        rcases List.mem_cons.mp hmem with rfl | hmem2
        · rename_i hcond
          exact hcond hu
        · exact ih _ u
            ((HLTVFrontier.is_visited_iff _ u).mpr
              ((f.mem_mark_visited _ u).mpr
                (Or.inr ((f.is_visited_iff u).mp hu)))) hmem2

theorem nodup_enqueued (l : List (Option String)) :
    ∀ f : HLTVFrontier, (parse_links_on_page f l).2.Nodup := by
  induction l with
  | nil => exact fun _ => List.nodup_nil
  | cons hd tl ih =>
    intro f
    cases hd with
    | none => exact ih f
    | some href =>
      simp only [parse_links_on_page]
      split
      · exact ih f
      · dsimp only
        refine List.nodup_cons.mpr ⟨?_, ih _⟩
        exact not_enqueued_of_visited tl _ _
          ((HLTVFrontier.is_visited_iff _ _).mpr
            ((f.mem_mark_visited _ _).mpr (Or.inl rfl)))

theorem enqueued_marked (l : List (Option String)) :
    ∀ (f : HLTVFrontier) (u : String),
      u ∈ (parse_links_on_page f l).2 →
      (parse_links_on_page f l).1.is_visited u = true := by
  induction l with
  | nil => exact fun f u h => absurd h (List.not_mem_nil u)
  | cons hd tl ih =>
    intro f u
    cases hd with
    | none => exact ih f u
    | some href =>
      simp only [parse_links_on_page]
      split
      · exact ih f u
      · dsimp only
        intro hmem
        rcases List.mem_cons.mp hmem with hcase | hmem2
        · subst hcase
          exact (HLTVFrontier.is_visited_iff _ _).mpr
            (visited_mono_parse_links tl _ _
              ((f.mem_mark_visited _ _).mpr (Or.inl rfl)))
        · exact ih _ u hmem2

/-- C10, counterexample: the force flag does not re-enqueue a visited
item URL.  With force set and the discovered URL already visited, the
code (`HLTVFrontier.parse` driving `__parse_links_on_page`) enqueues
nothing, while the claim's item-level force semantics
(`claim_parse_links_on_page`) would re-enqueue it. -/
theorem c10_force_does_not_reenqueue :
    (HLTVFrontier.parse ⟨["https://www.hltv.org/matches/1"]⟩ "LISTING"
      true [some "/matches/1"]).2.1 = [] ∧
    (claim_parse_links_on_page true ⟨["https://www.hltv.org/matches/1"]⟩
      [some "/matches/1"]).2 = ["https://www.hltv.org/matches/1"] ∧
    ([] : List String) ≠ ["https://www.hltv.org/matches/1"] := by
  exact ⟨by decide, by decide, by decide⟩

/-- C10, amended: for discovered item URLs the force flag is never
consulted (`__parse_links_on_page` takes no force parameter): a visited
URL is always skipped — nothing marked, nothing enqueued — and an
unvisited URL is marked visited before its task is enqueued, so
duplicates within one page are enqueued only once and every enqueued
URL is marked afterwards; the force flag only affects the listing URL
in `HLTVFrontier.parse`, which without force skips a visited listing
and with force processes it. -/
theorem c10_dedup_no_item_force (f : HLTVFrontier)
    (hrefs : List (Option String)) (url u : String) :
    (f.is_visited u = true → u ∉ (parse_links_on_page f hrefs).2) ∧
    (parse_links_on_page f hrefs).2.Nodup ∧
    (u ∈ (parse_links_on_page f hrefs).2 →
      (parse_links_on_page f hrefs).1.is_visited u = true) ∧
    (f.is_visited url = true →
      f.parse url false hrefs = (f, [], false) ∧
      (f.parse url true hrefs).2.2 = true) := by
  refine ⟨fun hv => not_enqueued_of_visited hrefs f u hv,
    nodup_enqueued hrefs f,
    fun hm => enqueued_marked hrefs f u hm,
    fun hv => ⟨?_, ?_⟩⟩
  · simp [HLTVFrontier.parse, hv]
  · simp [HLTVFrontier.parse]

/-- C10, witness for the amended theorem on a frontier with one visited
match URL and a listing page carrying a visited link, a duplicated new
link and an absent attribute. -/
theorem c10_dedup_no_item_force_witness :
    "https://www.hltv.org/matches/1" ∉
      (parse_links_on_page frontierW hrefsW).2 ∧
    (parse_links_on_page frontierW hrefsW).2.Nodup ∧
    frontierW.parse "https://www.hltv.org/matches/1" false hrefsW =
      (frontierW, [], false) := by
  have h := c10_dedup_no_item_force frontierW hrefsW
    "https://www.hltv.org/matches/1" "https://www.hltv.org/matches/1"
  exact ⟨h.1 (by decide), h.2.1, (h.2.2.2 (by decide)).1⟩

end ClutchOrPredict
